import Mathlib

/-! Shallow embedding of the ChatKit panel dispatch layer of the
cekat-ai-agent-assistant repository (ChatKitPanel.tsx): JavaScript value
coercions, the onClientTool tool dispatcher with its per-thread dedupe
set, the onThreadChange reset, and the widgets.onAction router.
Logging calls (console.log and friends) are not modelled as effects;
observable side effects (theme callback, dedupe insertion, persistence
callback, window.open, location.href assignment, hidden-link click,
fetch, download, alert, backend relay) are recorded in an ordered trace. -/

namespace CekatAgent

/-- Untyped JavaScript values as they arrive in tool and widget params. -/
inductive JSValue where
  | undefined
  | null
  | bool (b : Bool)
  | num (n : Int)
  | str (s : String)
deriving DecidableEq, Repr

/-- Nullish coalescing: the JS expression v ?? d. -/
def jsCoalesce (v d : JSValue) : JSValue :=
  match v with
  | JSValue.undefined => d
  | JSValue.null => d
  | v => v

/-- The JS String(v) coercion. -/
def jsToString : JSValue → String
  | JSValue.undefined => "undefined"
  | JSValue.null => "null"
  | JSValue.bool true => "true"
  | JSValue.bool false => "false"
  | JSValue.num n => toString n
  | JSValue.str s => s

/-- JS truthiness, as applied by Boolean(v) or an if-condition. -/
def jsTruthy : JSValue → Bool
  | JSValue.undefined => false
  | JSValue.null => false
  | JSValue.bool b => b
  | JSValue.num n => decide (n ≠ 0)
  | JSValue.str s => decide (s ≠ "")

/-- Property access on a JS params object: absent keys read as undefined. -/
def getParam (ps : List (String × JSValue)) (k : String) : JSValue :=
  match ps.lookup k with
  | some v => v
  | none => JSValue.undefined

/-- A tool invocation delivered by the agent runtime to onClientTool. -/
structure ToolInvocation where
  name : String
  params : List (String × JSValue)
deriving DecidableEq, Repr

/-- The structured result a tool handler returns to the agent runtime. -/
structure ToolResult where
  success : Bool
deriving DecidableEq, Repr

/-- Observable side effects of the dispatch layer, in program order.
alertShown stands for the window.alert call with the fixed
failure-notice text of the image-download branch. -/
inductive Effect where
  | themeRequest (scheme : String)
  | insertFact (factId : String)
  | persistFact (factId : String) (factText : String)
  | openNewTab (url : String)
  | focusNewWindow
  | navigateCurrent (url : String)
  | clickHiddenLink (url : String)
  | fetchImage (url : String)
  | downloadFile (url : String)
  | alertShown
  | backendRelay (actionType : String) (itemId : String)
deriving DecidableEq, Repr

/-- Browser environment facts the navigation handler depends on:
whether window.open returns a window object (popup not blocked). -/
structure NavEnv where
  windowOpenReturnsWindow : Bool
deriving DecidableEq, Repr

/-- The whitespace class of the JS regex backslash-s and of
String.prototype.trim: space, tab, LF, VT, FF, CR, NBSP, and the
Unicode space separators, line/paragraph separators and BOM. -/
def isJsWhitespace (c : Char) : Bool :=
  decide (c.toNat = 0x20 ∨ (0x09 ≤ c.toNat ∧ c.toNat ≤ 0x0d) ∨
    c.toNat = 0xa0 ∨ c.toNat = 0x1680 ∨
    (0x2000 ≤ c.toNat ∧ c.toNat ≤ 0x200a) ∨ c.toNat = 0x2028 ∨
    c.toNat = 0x2029 ∨ c.toNat = 0x202f ∨ c.toNat = 0x205f ∨
    c.toNat = 0x3000 ∨ c.toNat = 0xfeff)

/-- Character-list core of the JS replace of every maximal whitespace
run by a single space: the Boolean flag records whether the previous
character was whitespace (i.e. whether we are inside a run whose
single replacement space was already emitted). -/
def collapseGo : Bool → List Char → List Char
  | _, [] => []
  | prevWs, c :: cs =>
    if isJsWhitespace c then
      if prevWs then collapseGo true cs else ' ' :: collapseGo true cs
    else c :: collapseGo false cs

/-- The JS expression text.replace of the whitespace-run regex by a
single space, applied globally. -/
def replaceWsRuns (s : String) : String :=
  String.mk (collapseGo false s.data)

/-- Remove trailing JS whitespace from a character list. -/
def rightTrim (l : List Char) : List Char :=
  (l.reverse.dropWhile isJsWhitespace).reverse

/-- Remove leading and trailing JS whitespace from a character list. -/
def jsTrimList (l : List Char) : List Char :=
  rightTrim (l.dropWhile isJsWhitespace)

/-- The JS String.prototype.trim method. -/
def jsTrim (s : String) : String :=
  String.mk (jsTrimList s.data)

/-- The record_fact normalization from the source: collapse whitespace
runs, then trim. -/
def normalizeFactText (s : String) : String :=
  jsTrim (replaceWsRuns s)

/-- Specification-side reading of the normalization contract: the
maximal runs of non-whitespace characters of the input, in order.
Together with intercalation by a single space this expresses the
claim that every maximal whitespace run is collapsed to one space
and the ends are trimmed. The first argument accumulates the
current word in reverse. -/
def wordsGo : List Char → List Char → List (List Char)
  | [], [] => []
  | a :: acc, [] => [(a :: acc).reverse]
  | [], c :: cs =>
    if isJsWhitespace c then wordsGo [] cs else wordsGo [c] cs
  | a :: acc, c :: cs =>
    if isJsWhitespace c then (a :: acc).reverse :: wordsGo [] cs
    else wordsGo (c :: a :: acc) cs

/-- The maximal non-whitespace runs of a character list. -/
def wsWords (l : List Char) : List (List Char) := wordsGo [] l

/-- Specification-side normalization: the whitespace-delimited words
of the input joined by single spaces. -/
def specNormalize (s : String) : String :=
  String.mk (List.intercalate [' '] (wsWords s.data))

/-- The onClientTool dispatcher of ChatKitPanel.tsx, acting on the
per-thread dedupe set (the processedFacts ref, modelled as a list of
fact ids). Returns the updated dedupe set, the ordered effect trace,
and the ToolResult handed back to the agent runtime. The try-catch
around navigation is modelled for the non-throwing executions the
verified claims are about; every branch of the source resolves to a
structured result. -/
def onClientTool (env : NavEnv) (seenFactIds : List String)
    (inv : ToolInvocation) : List String × List Effect × ToolResult :=
  if inv.name = "switch_theme" then
    let requested := getParam inv.params "theme"
    if requested = JSValue.str "light" ∨ requested = JSValue.str "dark" then
      (seenFactIds, [Effect.themeRequest (jsToString requested)],
        ToolResult.mk true)
    else
      (seenFactIds, [], ToolResult.mk false)
  else if inv.name = "record_fact" then
    let id := jsToString (jsCoalesce (getParam inv.params "fact_id")
      (JSValue.str ""))
    let text := jsToString (jsCoalesce (getParam inv.params "fact_text")
      (JSValue.str ""))
    if id = "" ∨ seenFactIds.contains id then
      (seenFactIds, [], ToolResult.mk true)
    else
      (id :: seenFactIds,
        [Effect.insertFact id, Effect.persistFact id (normalizeFactText text)],
        ToolResult.mk true)
  else if inv.name = "navigate_to_url" then
    let url := jsToString (jsCoalesce (getParam inv.params "url")
      (JSValue.str ""))
    let openInNewTab := jsTruthy (jsCoalesce
      (getParam inv.params "open_in_new_tab") (JSValue.bool true))
    if url = "" then
      (seenFactIds, [], ToolResult.mk false)
    else if openInNewTab then
      if env.windowOpenReturnsWindow then
        (seenFactIds, [Effect.openNewTab url, Effect.focusNewWindow],
          ToolResult.mk true)
      else
        (seenFactIds, [Effect.openNewTab url, Effect.navigateCurrent url],
          ToolResult.mk true)
    else
      (seenFactIds, [Effect.navigateCurrent url], ToolResult.mk true)
  else
    (seenFactIds, [], ToolResult.mk false)

/-- The onThreadChange handler: processedFacts.current.clear(). -/
def onThreadChange (_seenFactIds : List String) : List String := []

/-- The closed set of tool names onClientTool recognizes. -/
def recognizedToolNames : List String :=
  ["switch_theme", "record_fact", "navigate_to_url"]

/-- JSON values, for the body of a backend widget-action response. -/
inductive Json where
  | null
  | bool (b : Bool)
  | num (n : Int)
  | str (s : String)
  | arr (elems : List Json)
  | obj (fields : List (String × Json))

/-- A widget-originated action; the payload object may be absent
(the source reads it with optional chaining). -/
structure WidgetAction where
  type : String
  payload : Option (List (String × JSValue))

/-- The JS expression action.payload?.url . -/
def payloadUrl (a : WidgetAction) : JSValue :=
  match a.payload with
  | none => JSValue.undefined
  | some p => getParam p "url"

/-- What the widgets.onAction handler resolves to: undefined (a bare
return), the backend response body returned unchanged, or the
object built in a catch block with success false and an error
message. -/
inductive ActionOutcome where
  | noResult
  | json (value : Json)
  | failure (error : String)

/-- Whether an outcome is a failed ActionResult: either the
catch-block failure object, or a returned JSON object whose
success field is false. A bare undefined return is no result at
all. -/
def isFailedResult : ActionOutcome → Bool
  | ActionOutcome.noResult => false
  | ActionOutcome.failure _ => true
  | ActionOutcome.json (Json.obj fields) =>
    match fields.lookup "success" with
    | some (Json.bool b) => !b
    | _ => false
  | ActionOutcome.json _ => false

/-- HTTP response.ok: status in the 2xx range. -/
def httpOk (status : Nat) : Bool :=
  decide (200 ≤ status ∧ status ≤ 299)

/-- Environment facts the widget action router depends on. The image
fetch either rejects (fetchResolves false, a network error) or
resolves with fetchStatus. The backend relay either rejects
(relayResolves false) or resolves with relayStatus and a body that
parses to relayBody (none when response.json() rejects). The source
never reads relayStatus; it is carried here because the response it
models has one. The error messages are those of the rejected
promises. -/
structure WidgetEnv where
  windowOpenReturnsWindow : Bool
  fetchResolves : Bool
  fetchStatus : Nat
  relayResolves : Bool
  relayStatus : Nat
  relayBody : Option Json
  relayNetErrMsg : String
  relayParseErrMsg : String

/-- The widgets.onAction router of ChatKitPanel.tsx. The post-fetch
DOM work of the successful image path (object URL, anchor click,
revoke) is abstracted as the single downloadFile effect; the claims
under verification concern the failure paths, which the source
resolves inside its catch block. -/
def widgetOnAction (env : WidgetEnv) (a : WidgetAction) (itemId : String) :
    List Effect × ActionOutcome :=
  if a.type = "navigation.open" then
    let url := payloadUrl a
    if jsTruthy url then
      if env.windowOpenReturnsWindow then
        ([Effect.openNewTab (jsToString url), Effect.focusNewWindow],
          ActionOutcome.noResult)
      else
        ([Effect.openNewTab (jsToString url),
          Effect.clickHiddenLink (jsToString url)], ActionOutcome.noResult)
    else
      ([], ActionOutcome.noResult)
  else if a.type = "image.download" ∨ a.type = "image_generation.download" then
    let url := payloadUrl a
    if jsTruthy url = false then
      ([], ActionOutcome.noResult)
    else if env.fetchResolves then
      if httpOk env.fetchStatus then
        ([Effect.fetchImage (jsToString url),
          Effect.downloadFile (jsToString url)], ActionOutcome.noResult)
      else
        ([Effect.fetchImage (jsToString url), Effect.alertShown],
          ActionOutcome.noResult)
    else
      ([Effect.fetchImage (jsToString url), Effect.alertShown],
        ActionOutcome.noResult)
  else
    if env.relayResolves then
      match env.relayBody with
      | some j => ([Effect.backendRelay a.type itemId], ActionOutcome.json j)
      | none => ([Effect.backendRelay a.type itemId],
          ActionOutcome.failure env.relayParseErrMsg)
    else
      ([Effect.backendRelay a.type itemId],
        ActionOutcome.failure env.relayNetErrMsg)

/-- Number of persistence-callback invocations for fact id f in an
effect trace. -/
def persistCountFor (f : String) (es : List Effect) : Nat :=
  (es.filter fun e =>
    match e with
    | Effect.persistFact g _ => g == f
    | _ => false).length

/-- Scans a trace left to right; the flag records whether an insertion
of f into the dedupe set has already been seen. Holds when every
persistence of f is preceded by an insertion of f. -/
def insertBeforePersistGo (f : String) : List Effect → Bool → Bool
  | [], _ => true
  | Effect.insertFact g :: es, seen =>
    insertBeforePersistGo f es (seen || g == f)
  | Effect.persistFact g _ :: es, seen =>
    ((g == f) == false || seen) && insertBeforePersistGo f es seen
  | _ :: es, seen => insertBeforePersistGo f es seen

/-- Every persistence of f in the trace is preceded by an insertion
of f into the dedupe set. -/
def insertBeforePersist (f : String) (es : List Effect) : Bool :=
  insertBeforePersistGo f es false

/-- Whether a trace shows the new-tab navigation path was taken
(a window.open call happened). -/
def tookNewTabPath (es : List Effect) : Bool :=
  es.any fun e =>
    match e with
    | Effect.openNewTab _ => true
    | _ => false

/-- A record_fact invocation with string-typed params, as the agent
runtime sends them. -/
def recordFactInv (f t : String) : ToolInvocation :=
  ToolInvocation.mk "record_fact"
    [("fact_id", JSValue.str f), ("fact_text", JSValue.str t)]

/-- A navigate_to_url invocation whose open_in_new_tab param is the
JS value null. -/
def navNullTabInv : ToolInvocation :=
  ToolInvocation.mk "navigate_to_url"
    [("url", JSValue.str "https://example.com"),
     ("open_in_new_tab", JSValue.null)]

/-- A browser environment in which window.open succeeds. -/
def openOkEnv : NavEnv := NavEnv.mk true

/-- An image.download widget action carrying a URL. -/
def imgDownloadAction : WidgetAction :=
  WidgetAction.mk "image.download"
    (some [("url", JSValue.str "https://img.example/pic.png")])

/-- A widget environment in which the image fetch rejects with a
network error. -/
def imgFailEnv : WidgetEnv :=
  WidgetEnv.mk true false 0 true 200 none "network error" "parse error"

/-- A widget action of a type handled by the backend relay branch. -/
def relayAction : WidgetAction :=
  WidgetAction.mk "custom.action" (some [("foo", JSValue.str "bar")])

/-- The backend response body used below: a JSON object with success
true. -/
def relayOkBody : Json := Json.obj [("success", Json.bool true)]

/-- A widget environment in which the backend relay resolves with HTTP
status 500 and a body that parses as JSON. -/
def relayNon2xxEnv : WidgetEnv :=
  WidgetEnv.mk true true 200 true 500 (some relayOkBody)
    "network error" "parse error"

/-! Helper lemmas relating the source normalization (collapse runs,
then trim) to the specification-side words reading. -/

theorem collapseGo_true_eq (cs : List Char) :
    collapseGo true cs = collapseGo false (cs.dropWhile isJsWhitespace) := by
  induction cs with
  | nil => rfl
  | cons c cs ih =>
    by_cases h : isJsWhitespace c = true
    · simp [collapseGo, h, List.dropWhile_cons, ih]
    · simp [collapseGo, h, List.dropWhile_cons]

theorem collapseGo_false_word (w r : List Char)
    (hw : ∀ c ∈ w, isJsWhitespace c = false) :
    collapseGo false (w ++ r) = w ++ collapseGo false r := by
  induction w with
  | nil => rfl
  | cons c w ih =>
    have hc : isJsWhitespace c = false := hw c (by simp)
    simp only [List.cons_append, collapseGo, hc]
    simp only [Bool.false_eq_true, if_false, List.cons.injEq, true_and]
    exact ih fun d hd => hw d (by simp [hd])

theorem dropWhile_head_false {p : Char → Bool} {l : List Char} {c : Char}
    {t : List Char} (h : l.dropWhile p = c :: t) : p c = false := by
  have hne : l.dropWhile p ≠ [] := by simp [h]
  have := List.head_dropWhile_not p l hne
  rwa [show (l.dropWhile p).head hne = c by simp [h]] at this

theorem dropWhile_of_all_false (p : Char → Bool) (l : List Char)
    (h : ∀ c ∈ l, p c = false) : l.dropWhile p = l := by
  induction l with
  | nil => rfl
  | cons a l ih =>
    have ha : p a = false := h a (by simp)
    rw [List.dropWhile_cons, ha]
    simp

theorem dropWhile_collapse_dropWhile (t : List Char) :
    (collapseGo false (t.dropWhile isJsWhitespace)).dropWhile isJsWhitespace
      = collapseGo false (t.dropWhile isJsWhitespace) := by
  cases h : t.dropWhile isJsWhitespace with
  | nil => rfl
  | cons d t' =>
    have hd : isJsWhitespace d = false := dropWhile_head_false h
    simp [collapseGo, hd, List.dropWhile_cons]

theorem isJsWhitespace_space : isJsWhitespace ' ' = true := by decide

theorem rightTrim_cons_space (Y : List Char) :
    rightTrim (' ' :: Y)
      = if rightTrim Y = [] then [] else ' ' :: rightTrim Y := by
  unfold rightTrim
  rw [List.reverse_cons, List.dropWhile_append]
  by_cases h : Y.reverse.dropWhile isJsWhitespace = []
  · simp [h, List.dropWhile_cons, isJsWhitespace_space]
  · simp [h, List.isEmpty_iff]

theorem jsTrimList_word_append (A X : List Char) (hA : A ≠ [])
    (hall : ∀ c ∈ A, isJsWhitespace c = false) :
    jsTrimList (A ++ X) = A ++ rightTrim X := by
  unfold jsTrimList rightTrim
  have hdropA : A.dropWhile isJsWhitespace = A :=
    dropWhile_of_all_false _ _ hall
  have hrevall : ∀ c ∈ A.reverse, isJsWhitespace c = false := by
    intro c hc
    exact hall c (List.mem_reverse.mp hc)
  have hdropArev : A.reverse.dropWhile isJsWhitespace = A.reverse :=
    dropWhile_of_all_false _ _ hrevall
  rw [List.dropWhile_append, hdropA]
  have hAe : A.isEmpty = false := by
    cases A with
    | nil => exact absurd rfl hA
    | cons a t => rfl
  rw [hAe]
  simp only [Bool.false_eq_true, if_false]
  rw [List.reverse_append, List.dropWhile_append, hdropArev]
  by_cases h : X.reverse.dropWhile isJsWhitespace = []
  · have hre : X.reverse.isEmpty = true → X.reverse.dropWhile isJsWhitespace = [] := by
      intro hx
      rw [List.isEmpty_iff.mp hx]
      rfl
    by_cases hx : (X.reverse.dropWhile isJsWhitespace).isEmpty = true
    · rw [if_pos hx, h, List.reverse_nil, List.append_nil, List.reverse_reverse]
    · rw [List.isEmpty_iff] at hx
      exact absurd h hx
  · have hx : (X.reverse.dropWhile isJsWhitespace).isEmpty = false := by
      rw [List.isEmpty_eq_false_iff_exists_mem]
      cases hc : X.reverse.dropWhile isJsWhitespace with
      | nil => exact absurd hc h
      | cons a t => exact ⟨a, by simp [hc]⟩
    rw [hx]
    simp only [Bool.false_eq_true, if_false]
    rw [List.reverse_append, List.reverse_reverse]

theorem wordsGo_skip_ws (cs : List Char) :
    wordsGo [] (cs.dropWhile isJsWhitespace) = wordsGo [] cs := by
  induction cs with
  | nil => rfl
  | cons c cs ih =>
    by_cases h : isJsWhitespace c = true
    · rw [List.dropWhile_cons, if_pos h, ih]
      simp [wordsGo, h]
    · rw [List.dropWhile_cons, if_neg h]

theorem wordsGo_word_mode (cs : List Char) : ∀ a : Char, ∀ acc : List Char,
    wordsGo (a :: acc) cs =
      ((a :: acc).reverse ++ cs.takeWhile (fun c => !isJsWhitespace c)) ::
        wordsGo [] (cs.dropWhile (fun c => !isJsWhitespace c)) := by
  induction cs with
  | nil =>
    intro a acc
    simp [wordsGo]
  | cons c cs ih =>
    intro a acc
    by_cases hc : isJsWhitespace c = true
    · have h1 : wordsGo (a :: acc) (c :: cs)
          = (a :: acc).reverse :: wordsGo [] cs := by
        simp [wordsGo, hc]
      have h2 : wordsGo [] (c :: cs) = wordsGo [] cs := by
        simp [wordsGo, hc]
      rw [h1, List.takeWhile_cons, List.dropWhile_cons]
      simp [hc, h2]
    · have hcf : isJsWhitespace c = false := by
        revert hc
        cases isJsWhitespace c <;> simp
      have hstep : wordsGo (a :: acc) (c :: cs)
          = wordsGo (c :: a :: acc) cs := by
        simp [wordsGo, hcf]
      rw [hstep, ih c (a :: acc), List.takeWhile_cons, List.dropWhile_cons]
      simp [hcf]

theorem wordsGo_ne_nil (cs : List Char) : ∀ acc : List Char,
    [] ∉ wordsGo acc cs := by
  induction cs with
  | nil =>
    intro acc
    cases acc with
    | nil => simp [wordsGo]
    | cons a t => simp [wordsGo]
  | cons c cs ih =>
    intro acc
    cases acc with
    | nil =>
      by_cases h : isJsWhitespace c = true
      · simpa [wordsGo, h] using ih []
      · simpa [wordsGo, h] using ih [c]
    | cons a t =>
      by_cases h : isJsWhitespace c = true
      · simp only [wordsGo, h, if_true, List.mem_cons]
        rintro (habs | habs)
        · exact absurd habs.symm (by simp)
        · exact ih [] habs
      · simpa [wordsGo, h] using ih (c :: a :: t)

theorem intercalate_space_single (a : List Char) :
    List.intercalate [' '] [a] = a := by
  simp [List.intercalate]

theorem intercalate_space_cons₂ (a b : List Char) (t : List (List Char)) :
    List.intercalate [' '] (a :: b :: t)
      = a ++ ' ' :: List.intercalate [' '] (b :: t) := by
  simp [List.intercalate]

theorem intercalate_space_ne_nil (a : List Char) (t : List (List Char))
    (ha : a ≠ []) : List.intercalate [' '] (a :: t) ≠ [] := by
  cases t with
  | nil => simpa [intercalate_space_single]
  | cons b t =>
    rw [intercalate_space_cons₂]
    simp [ha]

theorem trim_collapse_eq_words : ∀ (n : Nat) (l : List Char), l.length ≤ n →
    jsTrimList (collapseGo false l)
      = List.intercalate [' '] (wordsGo [] l) := by
  intro n
  induction n with
  | zero =>
    intro l h
    have hl : l = [] := List.length_eq_zero.mp (Nat.le_zero.mp h)
    subst hl
    rfl
  | succ n ih =>
    intro l h
    match l with
    | [] => rfl
    | c :: cs =>
      have hcs : cs.length ≤ n := Nat.le_of_succ_le_succ h
      by_cases hc : isJsWhitespace c = true
      · -- leading whitespace: the emitted space is removed by the trim
        have hcoll : collapseGo false (c :: cs)
            = ' ' :: collapseGo false (cs.dropWhile isJsWhitespace) := by
          simp [collapseGo, hc, collapseGo_true_eq]
        have hX := dropWhile_collapse_dropWhile cs
        have hlen : (cs.dropWhile isJsWhitespace).length ≤ n :=
          Nat.le_trans (List.Sublist.length_le (List.dropWhile_sublist _)) hcs
        have hwords : wordsGo [] (c :: cs) = wordsGo [] cs := by
          simp [wordsGo, hc]
        rw [hcoll]
        unfold jsTrimList
        rw [List.dropWhile_cons, if_pos isJsWhitespace_space, hX]
        have := ih (cs.dropWhile isJsWhitespace) hlen
        unfold jsTrimList at this
        rw [hX] at this
        rw [this, wordsGo_skip_ws, hwords]
      · -- a word starts: peel the whole non-whitespace run
        have hcf : isJsWhitespace c = false := by
          revert hc
          cases isJsWhitespace c <;> simp
        have hsplit : cs.takeWhile (fun d => !isJsWhitespace d)
            ++ cs.dropWhile (fun d => !isJsWhitespace d) = cs :=
          List.takeWhile_append_dropWhile _ _
        set w := cs.takeWhile (fun d => !isJsWhitespace d) with hw
        set r := cs.dropWhile (fun d => !isJsWhitespace d) with hr
        have hwall : ∀ d ∈ w, isJsWhitespace d = false := by
          intro d hd
          have := List.mem_takeWhile_imp hd
          simpa using this
        have hAall : ∀ d ∈ c :: w, isJsWhitespace d = false := by
          intro d hd
          rcases List.mem_cons.mp hd with hd | hd
          · subst hd; exact hcf
          · exact hwall d hd
        have hcoll : collapseGo false (c :: cs)
            = (c :: w) ++ collapseGo false r := by
          have : collapseGo false (w ++ r) = w ++ collapseGo false r :=
            collapseGo_false_word w r hwall
          calc collapseGo false (c :: cs)
              = c :: collapseGo false cs := by simp [collapseGo, hcf]
            _ = c :: collapseGo false (w ++ r) := by rw [hsplit]
            _ = (c :: w) ++ collapseGo false r := by rw [this]; rfl
        have hwords : wordsGo [] (c :: cs) = (c :: w) :: wordsGo [] r := by
          have h0 : wordsGo [] (c :: cs) = wordsGo [c] cs := by
            simp [wordsGo, hcf]
          rw [h0, wordsGo_word_mode cs c []]
          simp
        rw [hcoll, hwords,
          jsTrimList_word_append (c :: w) _ (by simp) hAall]
        cases hrc : r with
        | nil =>
          have h1 : collapseGo false ([] : List Char) = [] := rfl
          have h2 : rightTrim ([] : List Char) = [] := rfl
          have h3 : wordsGo ([] : List Char) ([] : List Char) = [] := rfl
          rw [h1, h2, List.append_nil, h3, intercalate_space_single]
        | cons d r' =>
          have hdf : (fun x => !isJsWhitespace x) d = false :=
            dropWhile_head_false (hr.symm.trans hrc)
          have hd : isJsWhitespace d = true := by simpa using hdf
          have hcollr : collapseGo false (d :: r')
              = ' ' :: collapseGo false (r'.dropWhile isJsWhitespace) := by
            simp [collapseGo, hd, collapseGo_true_eq]
          set z := r'.dropWhile isJsWhitespace with hz
          set Y := collapseGo false z with hY
          have hzlen : z.length ≤ n := by
            have h1 : z.length ≤ r'.length :=
              List.Sublist.length_le (List.dropWhile_sublist _)
            have h2 : r'.length + 1 = r.length := by rw [hrc]; rfl
            have h3 : r.length ≤ cs.length :=
              List.Sublist.length_le (List.dropWhile_sublist _)
            omega
          have hYnolead : Y.dropWhile isJsWhitespace = Y := by
            rw [hY, hz]
            exact dropWhile_collapse_dropWhile r'
          have hIH : jsTrimList Y = List.intercalate [' '] (wordsGo [] z) := by
            rw [hY]
            exact ih z hzlen
          have hrtY : rightTrim Y = List.intercalate [' '] (wordsGo [] z) := by
            rw [← hIH]
            unfold jsTrimList
            rw [hYnolead]
          have hwz : wordsGo [] z = wordsGo [] (d :: r') := by
            rw [hz, wordsGo_skip_ws]
            simp [wordsGo, hd]
          rw [hcollr, rightTrim_cons_space, hrtY, hwz]
          cases hwr : wordsGo [] (d :: r') with
          | nil =>
            simp [List.intercalate, intercalate_space_single]
          | cons w0 t0 =>
            have hw0 : w0 ≠ [] := by
              intro habs
              have := wordsGo_ne_nil (d :: r') []
              rw [hwr, habs] at this
              simp at this
            have hne : List.intercalate [' '] (w0 :: t0) ≠ [] :=
              intercalate_space_ne_nil w0 t0 hw0
            rw [if_neg hne, intercalate_space_cons₂]

theorem normalizeFactText_eq_specNormalize (s : String) :
    normalizeFactText s = specNormalize s := by
  unfold normalizeFactText specNormalize jsTrim replaceWsRuns wsWords
  exact congrArg String.mk
    (trim_collapse_eq_words s.data.length s.data (Nat.le_refl _))

/-! Evaluation lemma for the record_fact branch, shared by the proofs
below. -/

theorem onClientTool_recordFact (env : NavEnv) (s : List String)
    (f t : String) :
    onClientTool env s (recordFactInv f t) =
      if f = "" ∨ s.contains f then (s, [], ToolResult.mk true)
      else (f :: s,
        [Effect.insertFact f, Effect.persistFact f (normalizeFactText t)],
        ToolResult.mk true) := by
  unfold onClientTool recordFactInv
  simp [getParam, jsCoalesce, jsToString, List.lookup]

theorem onClientTool_navigate (env : NavEnv) (s : List String)
    (ps : List (String × JSValue)) (u : String)
    (hurl : getParam ps "url" = JSValue.str u) (hu : u ≠ "") :
    onClientTool env s (ToolInvocation.mk "navigate_to_url" ps) =
      if jsTruthy (jsCoalesce (getParam ps "open_in_new_tab")
          (JSValue.bool true)) then
        if env.windowOpenReturnsWindow then
          (s, [Effect.openNewTab u, Effect.focusNewWindow],
            ToolResult.mk true)
        else
          (s, [Effect.openNewTab u, Effect.navigateCurrent u],
            ToolResult.mk true)
      else
        (s, [Effect.navigateCurrent u], ToolResult.mk true) := by
  simp [onClientTool, hurl, hu, jsCoalesce, jsToString]

/-- Claim C1: for every fact id f and every thread session state,
invoking the record_fact handler twice with fact id f, with no
thread-change event between the calls, schedules the persistence
callback at most once; and in the combined effect trace every
persistence of f is preceded by the insertion of f into the dedupe
set. -/
theorem recordFact_twice_persists_at_most_once
    (env : NavEnv) (s : List String) (f t1 t2 : String) :
    persistCountFor f
        ((onClientTool env s (recordFactInv f t1)).2.1 ++
          (onClientTool env
            (onClientTool env s (recordFactInv f t1)).1
            (recordFactInv f t2)).2.1) ≤ 1 ∧
    insertBeforePersist f
        ((onClientTool env s (recordFactInv f t1)).2.1 ++
          (onClientTool env
            (onClientTool env s (recordFactInv f t1)).1
            (recordFactInv f t2)).2.1) = true := by
  rw [onClientTool_recordFact]
  by_cases h : f = "" ∨ s.contains f
  · rw [if_pos h]
    rw [onClientTool_recordFact, if_pos h]
    simp [persistCountFor, insertBeforePersist, insertBeforePersistGo]
  · rw [if_neg h]
    have h2 : f = "" ∨ (f :: s).contains f := by
      right
      simp [List.contains_cons]
    rw [onClientTool_recordFact, if_pos h2]
    simp [persistCountFor, insertBeforePersist, insertBeforePersistGo,
      List.filter]

/-! The dedupe set only ever grows under tool invocations. -/

theorem onClientTool_state_superset (env : NavEnv) (s : List String)
    (inv : ToolInvocation) (x : String) (hx : s.contains x = true) :
    (onClientTool env s inv).1.contains x = true := by
  simp only [onClientTool]
  split
  · split
    · exact hx
    · exact hx
  · split
    · split
      · exact hx
      · have hxm : x ∈ s := by simpa using hx
        simp [hxm]
    · split
      · split
        · exact hx
        · split
          · split
            · exact hx
            · exact hx
          · exact hx
      · exact hx

/-- Claim C8: a tool invocation whose name is not one of the
recognized handler names resolves to success false with no side
effects and no state change; every branch of the dispatcher
returns a structured result, keeping the agent turn alive. -/
theorem unknownTool_returns_failure (env : NavEnv) (s : List String)
    (inv : ToolInvocation)
    (h : recognizedToolNames.contains inv.name = false) :
    onClientTool env s inv = (s, [], ToolResult.mk false) := by
  by_cases h1 : inv.name = "switch_theme"
  · rw [h1] at h
    exact absurd h (by decide)
  by_cases h2 : inv.name = "record_fact"
  · rw [h2] at h
    exact absurd h (by decide)
  by_cases h3 : inv.name = "navigate_to_url"
  · rw [h3] at h
    exact absurd h (by decide)
  simp only [onClientTool]
  rw [if_neg h1, if_neg h2, if_neg h3]

/-- Claim C9: a record_fact invocation whose fact id coerces to the
empty string returns success true, triggers no persistence
callback, and leaves the dedupe set unchanged. -/
theorem recordFact_emptyId_noop (env : NavEnv) (s : List String)
    (ps : List (String × JSValue))
    (h : jsToString (jsCoalesce (getParam ps "fact_id")
      (JSValue.str "")) = "") :
    onClientTool env s (ToolInvocation.mk "record_fact" ps)
      = (s, [], ToolResult.mk true) := by
  simp [onClientTool, h]

/-- Claim C3: a thread-change event resets the dedupe set to empty in
full, so a fact id that was persisted before the change (nonempty
and present in the old set) triggers the persistence callback
again when recorded after the change; and no single invocation
ever removes an element from the dedupe set. -/
theorem threadChange_resets_dedupe (env env2 : NavEnv)
    (s s2 : List String) (f t : String) (inv : ToolInvocation) (x : String)
    (hf : f ≠ "") (_hseen : s.contains f = true)
    (hx : s2.contains x = true) :
    persistCountFor f
        (onClientTool env (onThreadChange s) (recordFactInv f t)).2.1 = 1 ∧
    (onClientTool env2 s2 inv).1.contains x = true := by
  constructor
  · rw [show onThreadChange s = [] from rfl, onClientTool_recordFact,
      if_neg (by simp [hf])]
    simp [persistCountFor, List.filter]
  · exact onClientTool_state_superset env2 s2 inv x hx

/-- Claim C2: a navigate_to_url invocation with a nonempty url and
open_in_new_tab true, in a browser where window.open returns no
window, attempts the new tab, falls back to navigating the current
context to the same URL, and still returns success true. -/
theorem navigate_newTab_fallback (env : NavEnv) (s : List String)
    (ps : List (String × JSValue)) (u : String)
    (hurl : getParam ps "url" = JSValue.str u) (hu : u ≠ "")
    (hnt : getParam ps "open_in_new_tab" = JSValue.bool true)
    (hfail : env.windowOpenReturnsWindow = false) :
    (onClientTool env s (ToolInvocation.mk "navigate_to_url" ps)).2.1
      = [Effect.openNewTab u, Effect.navigateCurrent u] ∧
    (onClientTool env s
      (ToolInvocation.mk "navigate_to_url" ps)).2.2.success = true := by
  simp [onClientTool, hurl, hnt, hfail, jsCoalesce, jsToString,
    jsTruthy, hu]

/-- Claim C7: for a record_fact invocation with a new nonempty fact
id, the fact text handed to the persistence callback is the input
with every maximal run of whitespace collapsed to a single space
and leading and trailing whitespace trimmed — expressed here as
the whitespace-delimited words of the input joined by single
spaces — and in particular the two-space a three-space b
newline c input is normalized to the string a space b space c. -/
theorem recordFact_normalizes_text (env : NavEnv) (s : List String)
    (f t : String) (hf : f ≠ "") (hnew : s.contains f = false) :
    (onClientTool env s (recordFactInv f t)).2.1
      = [Effect.insertFact f, Effect.persistFact f (specNormalize t)] ∧
    specNormalize "  a   b\n c " = "a b c" := by
  constructor
  · rw [onClientTool_recordFact, if_neg (by
      simp only [not_or]
      refine ⟨hf, ?_⟩
      intro hc
      rw [hnew] at hc
      exact Bool.false_ne_true hc)]
    rw [normalizeFactText_eq_specNormalize]
  · decide

/-- Claim C10 counterexample: with open_in_new_tab set to the JS
value null and a nonempty url, the handler takes the new-tab path
(window.open is attempted, no same-context navigation happens),
because the nullish coalescing operator replaces null by the
default true before the Boolean coercion; so it is false that
every JS-falsy param value, null included, selects same-context
navigation. -/
theorem nullOpenInNewTab_takes_newTabPath :
    (onClientTool openOkEnv [] navNullTabInv).2.1
      = [Effect.openNewTab "https://example.com", Effect.focusNewWindow] ∧
    tookNewTabPath (onClientTool openOkEnv [] navNullTabInv).2.1 = true :=
  ⟨rfl, rfl⟩

/-- Claim C10 (amended): open_in_new_tab is coerced by JS truthiness
after nullish coalescing with default true: any truthy value,
including the non-empty string containing the word false, selects
the new-tab path; a JS-falsy value other than null and undefined
(false, zero, the empty string) selects same-context navigation;
an absent, undefined or null param defaults to true. -/
theorem openInNewTab_truthiness (env : NavEnv) (s : List String)
    (ps : List (String × JSValue)) (u : String)
    (hurl : getParam ps "url" = JSValue.str u) (hu : u ≠ "") :
    tookNewTabPath
        (onClientTool env s (ToolInvocation.mk "navigate_to_url" ps)).2.1
      = jsTruthy (jsCoalesce (getParam ps "open_in_new_tab")
          (JSValue.bool true)) ∧
    (jsTruthy (jsCoalesce (getParam ps "open_in_new_tab")
        (JSValue.bool true)) = false →
      (onClientTool env s (ToolInvocation.mk "navigate_to_url" ps)).2.1
        = [Effect.navigateCurrent u]) ∧
    jsTruthy (jsCoalesce (JSValue.str "false") (JSValue.bool true)) = true ∧
    jsTruthy (jsCoalesce JSValue.null (JSValue.bool true)) = true ∧
    jsTruthy (jsCoalesce JSValue.undefined (JSValue.bool true)) = true ∧
    jsTruthy (jsCoalesce (JSValue.bool false) (JSValue.bool true)) = false ∧
    jsTruthy (jsCoalesce (JSValue.num 0) (JSValue.bool true)) = false ∧
    jsTruthy (jsCoalesce (JSValue.str "") (JSValue.bool true)) = false := by
  refine ⟨?_, ?_, by decide, by decide, by decide, by decide, by decide,
    by decide⟩
  · rw [onClientTool_navigate env s ps u hurl hu]
    cases hb : jsTruthy (jsCoalesce (getParam ps "open_in_new_tab")
        (JSValue.bool true)) with
    | false =>
      simp [tookNewTabPath]
    | true =>
      cases hw : env.windowOpenReturnsWindow with
      | false => simp [hw, tookNewTabPath]
      | true => simp [hw, tookNewTabPath]
  · intro hb
    rw [onClientTool_navigate env s ps u hurl hu, hb]
    simp

/-- Claim C6: a navigation.open widget action whose payload has no
url is a no-op: no effect at all (in particular no navigation and
no backend request) and no error surfaced, with the handler
resolving to undefined. -/
theorem navigationOpen_absent_url_noop (env : WidgetEnv)
    (a : WidgetAction) (itemId : String)
    (hty : a.type = "navigation.open")
    (hurl : payloadUrl a = JSValue.undefined) :
    widgetOnAction env a itemId = ([], ActionOutcome.noResult) := by
  simp only [widgetOnAction]
  rw [if_pos hty]
  simp [hurl, jsTruthy]

/-- Claim C4 counterexample: at an image.download action with a
present URL whose fetch rejects, the handler shows the alert and
resolves, but its return value is undefined — no ActionResult at
all — so it does not return a failed ActionResult as claimed. -/
theorem imageDownload_no_failed_result :
    (widgetOnAction imgFailEnv imgDownloadAction "item-1").1
      = [Effect.fetchImage "https://img.example/pic.png",
         Effect.alertShown] ∧
    (widgetOnAction imgFailEnv imgDownloadAction "item-1").2
      = ActionOutcome.noResult ∧
    isFailedResult (widgetOnAction imgFailEnv imgDownloadAction
      "item-1").2 = false :=
  ⟨rfl, rfl, rfl⟩

/-- Claim C4 (amended): for an image.download or
image_generation.download action with a present URL whose fetch
fails by network error or non-2xx status, the handler surfaces the
user-visible failure alert and resolves without any thrown or
unhandled fault, returning undefined (no ActionResult) rather
than a failed ActionResult. -/
theorem imageDownload_fetchFailure_alerts (env : WidgetEnv)
    (a : WidgetAction) (itemId u : String)
    (hty : a.type = "image.download" ∨
      a.type = "image_generation.download")
    (hurl : payloadUrl a = JSValue.str u) (hu : u ≠ "")
    (hfail : env.fetchResolves = false ∨ httpOk env.fetchStatus = false) :
    (widgetOnAction env a itemId).1
      = [Effect.fetchImage u, Effect.alertShown] ∧
    (widgetOnAction env a itemId).2 = ActionOutcome.noResult := by
  have hne : a.type ≠ "navigation.open" := by
    rcases hty with h | h <;> rw [h] <;> decide
  simp only [widgetOnAction]
  rw [if_neg hne, if_pos hty]
  cases hres : env.fetchResolves with
  | false =>
    simp [hurl, jsTruthy, jsToString, hu]
  | true =>
    have hbad : httpOk env.fetchStatus = false := by
      rcases hfail with hcontra | hok
      · rw [hcontra] at hres
        cases hres
      · exact hok
    simp [hurl, jsTruthy, jsToString, hu, hbad]

/-- Claim C5 counterexample: the relay branch never inspects the HTTP
status; with status 500 and a response body parsing to a JSON
object with success true, the handler returns that body unchanged
instead of yielding a success-false error result, so a non-2xx
response is not treated as an error. -/
theorem relay_non2xx_returned_unchanged :
    relayNon2xxEnv.relayStatus = 500 ∧
    (widgetOnAction relayNon2xxEnv relayAction "item-2").2
      = ActionOutcome.json relayOkBody ∧
    isFailedResult (widgetOnAction relayNon2xxEnv relayAction
      "item-2").2 = false :=
  ⟨rfl, rfl, rfl⟩

/-- Claim C5 (amended): for a widget action relayed to the backend
endpoint, a network failure or an unparseable JSON response body
yields a success-false result carrying an error description, and
any response whose body parses as JSON — regardless of HTTP
status — is returned to the caller unchanged. -/
theorem relay_result_classification (env : WidgetEnv)
    (a : WidgetAction) (itemId : String) (j : Json)
    (h1 : a.type ≠ "navigation.open")
    (h2 : a.type ≠ "image.download")
    (h3 : a.type ≠ "image_generation.download") :
    (env.relayResolves = false →
      widgetOnAction env a itemId
        = ([Effect.backendRelay a.type itemId],
           ActionOutcome.failure env.relayNetErrMsg)) ∧
    (env.relayResolves = true → env.relayBody = none →
      widgetOnAction env a itemId
        = ([Effect.backendRelay a.type itemId],
           ActionOutcome.failure env.relayParseErrMsg)) ∧
    (env.relayResolves = true → env.relayBody = some j →
      widgetOnAction env a itemId
        = ([Effect.backendRelay a.type itemId], ActionOutcome.json j)) := by
  have hno : ¬ (a.type = "image.download" ∨
      a.type = "image_generation.download") := by
    rintro (h | h)
    · exact h2 h
    · exact h3 h
  refine ⟨?_, ?_, ?_⟩
  · intro hres
    simp only [widgetOnAction]
    rw [if_neg h1, if_neg hno, hres]
    simp
  · intro hres hbody
    simp only [widgetOnAction]
    rw [if_neg h1, if_neg hno, hres, hbody]
    simp
  · intro hres hbody
    simp only [widgetOnAction]
    rw [if_neg h1, if_neg hno, hres, hbody]
    simp

/-! Concrete witnesses instantiating the hypotheses of the theorems
above. -/

theorem navigate_newTab_fallback_witness :
    (onClientTool (NavEnv.mk false) []
        (ToolInvocation.mk "navigate_to_url"
          [("url", JSValue.str "https://example.com"),
           ("open_in_new_tab", JSValue.bool true)])).2.1
      = [Effect.openNewTab "https://example.com",
         Effect.navigateCurrent "https://example.com"] ∧
    (onClientTool (NavEnv.mk false) []
        (ToolInvocation.mk "navigate_to_url"
          [("url", JSValue.str "https://example.com"),
           ("open_in_new_tab", JSValue.bool true)])).2.2.success = true :=
  navigate_newTab_fallback (NavEnv.mk false) []
    [("url", JSValue.str "https://example.com"),
     ("open_in_new_tab", JSValue.bool true)]
    "https://example.com" rfl (by decide) rfl rfl

theorem threadChange_resets_dedupe_witness :
    persistCountFor "f1"
        (onClientTool openOkEnv (onThreadChange ["f1"])
          (recordFactInv "f1" "some fact")).2.1 = 1 ∧
    (onClientTool openOkEnv ["f1"]
        (recordFactInv "f1" "some fact")).1.contains "f1" = true :=
  threadChange_resets_dedupe openOkEnv openOkEnv ["f1"] ["f1"] "f1"
    "some fact" (recordFactInv "f1" "some fact") "f1"
    (by decide) (by decide) (by decide)

theorem imageDownload_fetchFailure_alerts_witness :
    (widgetOnAction imgFailEnv imgDownloadAction "item-1").1
      = [Effect.fetchImage "https://img.example/pic.png",
         Effect.alertShown] ∧
    (widgetOnAction imgFailEnv imgDownloadAction "item-1").2
      = ActionOutcome.noResult :=
  imageDownload_fetchFailure_alerts imgFailEnv imgDownloadAction
    "item-1" "https://img.example/pic.png"
    (Or.inl rfl) rfl (by decide) (Or.inl rfl)

theorem relay_result_classification_witness :
    (relayNon2xxEnv.relayResolves = false →
      widgetOnAction relayNon2xxEnv relayAction "item-2"
        = ([Effect.backendRelay relayAction.type "item-2"],
           ActionOutcome.failure relayNon2xxEnv.relayNetErrMsg)) ∧
    (relayNon2xxEnv.relayResolves = true →
      relayNon2xxEnv.relayBody = none →
      widgetOnAction relayNon2xxEnv relayAction "item-2"
        = ([Effect.backendRelay relayAction.type "item-2"],
           ActionOutcome.failure relayNon2xxEnv.relayParseErrMsg)) ∧
    (relayNon2xxEnv.relayResolves = true →
      relayNon2xxEnv.relayBody = some relayOkBody →
      widgetOnAction relayNon2xxEnv relayAction "item-2"
        = ([Effect.backendRelay relayAction.type "item-2"],
           ActionOutcome.json relayOkBody)) :=
  relay_result_classification relayNon2xxEnv relayAction "item-2"
    relayOkBody (by decide) (by decide) (by decide)

theorem navigationOpen_absent_url_noop_witness :
    widgetOnAction imgFailEnv
      (WidgetAction.mk "navigation.open" (some [])) "item-3"
      = ([], ActionOutcome.noResult) :=
  navigationOpen_absent_url_noop imgFailEnv
    (WidgetAction.mk "navigation.open" (some [])) "item-3" rfl rfl

theorem recordFact_normalizes_text_witness :
    (onClientTool openOkEnv [] (recordFactInv "x1" "  a   b\n c ")).2.1
      = [Effect.insertFact "x1",
         Effect.persistFact "x1" (specNormalize "  a   b\n c ")] ∧
    specNormalize "  a   b\n c " = "a b c" :=
  recordFact_normalizes_text openOkEnv [] "x1" "  a   b\n c "
    (by decide) (by decide)

theorem unknownTool_returns_failure_witness :
    onClientTool openOkEnv [] (ToolInvocation.mk "get_weather" [])
      = ([], [], ToolResult.mk false) :=
  unknownTool_returns_failure openOkEnv []
    (ToolInvocation.mk "get_weather" []) (by decide)

theorem recordFact_emptyId_noop_witness :
    onClientTool openOkEnv ["a"]
      (ToolInvocation.mk "record_fact" [("fact_id", JSValue.str "")])
      = (["a"], [], ToolResult.mk true) :=
  recordFact_emptyId_noop openOkEnv ["a"]
    [("fact_id", JSValue.str "")] (by decide)

theorem openInNewTab_truthiness_witness :
    tookNewTabPath
        (onClientTool openOkEnv []
          (ToolInvocation.mk "navigate_to_url"
            [("url", JSValue.str "https://example.com"),
             ("open_in_new_tab", JSValue.str "false")])).2.1
      = jsTruthy (jsCoalesce
          (getParam [("url", JSValue.str "https://example.com"),
            ("open_in_new_tab", JSValue.str "false")] "open_in_new_tab")
          (JSValue.bool true)) ∧
    (jsTruthy (jsCoalesce
        (getParam [("url", JSValue.str "https://example.com"),
          ("open_in_new_tab", JSValue.str "false")] "open_in_new_tab")
        (JSValue.bool true)) = false →
      (onClientTool openOkEnv []
        (ToolInvocation.mk "navigate_to_url"
          [("url", JSValue.str "https://example.com"),
           ("open_in_new_tab", JSValue.str "false")])).2.1
        = [Effect.navigateCurrent "https://example.com"]) ∧
    jsTruthy (jsCoalesce (JSValue.str "false") (JSValue.bool true)) = true ∧
    jsTruthy (jsCoalesce JSValue.null (JSValue.bool true)) = true ∧
    jsTruthy (jsCoalesce JSValue.undefined (JSValue.bool true)) = true ∧
    jsTruthy (jsCoalesce (JSValue.bool false) (JSValue.bool true)) = false ∧
    jsTruthy (jsCoalesce (JSValue.num 0) (JSValue.bool true)) = false ∧
    jsTruthy (jsCoalesce (JSValue.str "") (JSValue.bool true)) = false :=
  openInNewTab_truthiness openOkEnv []
    [("url", JSValue.str "https://example.com"),
     ("open_in_new_tab", JSValue.str "false")]
    "https://example.com" rfl (by decide)

end CekatAgent
